import Mathlib

set_option maxRecDepth 40000

/-!
Shallow embedding of the command classification and policy-validation core of
`awslabs/dynamodb_mcp_server/common.py`: the endpoint classifier
`is_dynamodb_local`, the command classifier `is_delete_table_operation`, and
the composed policy validator `validate_delete_table_operation`.

Python strings are modelled as `List Char`; `str.lower()` is modelled as a
character-wise lower-casing map; Python's substring operator `in` is modelled
as `List.IsInfix`; an optional endpoint argument is `Option Str`, with
Python's truthiness test `not endpoint_url` rendered as "absent or the empty
string".
-/

/-- Python strings, modelled as lists of characters. -/
abbrev Str := List Char

/-- Model of Python `str.lower()`: character-wise lower-casing. -/
def pyLower (s : Str) : Str := s.map Char.toLower

/-- The fixed list `local_indicators = ['localhost', '127.0.0.1', '0.0.0.0']`
from `is_dynamodb_local`. -/
def local_indicators : List Str :=
  ["localhost".data, "127.0.0.1".data, "0.0.0.0".data]

/-- Embedding of `is_dynamodb_local(endpoint_url)`: absent or empty endpoint
is not local; otherwise lower-case the endpoint and test whether any of the
fixed indicators occurs as a substring. -/
def is_dynamodb_local (endpoint_url : Option Str) : Bool :=
  match endpoint_url with
  | none => false
  | some s =>
    if s = [] then false
    else
      local_indicators.any (fun indicator => decide (indicator <:+: pyLower s))

/-- Embedding of `is_delete_table_operation(command)`: lower-case the command
and test whether `"delete-table"` occurs as a substring. -/
def is_delete_table_operation (command : Str) : Bool :=
  decide ("delete-table".data <:+: pyLower command)

/-- Embedding of the inline expression
`endpoint_display = endpoint_url if endpoint_url else 'AWS DynamoDB (default)'`
from `validate_delete_table_operation`. -/
def endpoint_display (endpoint_url : Option Str) : Str :=
  match endpoint_url with
  | none => "AWS DynamoDB (default)".data
  | some s => if s = [] then "AWS DynamoDB (default)".data else s

/-- The fixed part of the denial message: everything of the f-string template
in `validate_delete_table_operation` up to and including
`"Current endpoint: "`. -/
def denialTemplate : Str :=
  ("Delete-table operation is not allowed on AWS DynamoDB.\nTable deletion can only be executed against DynamoDB Local.\n\nTo use DynamoDB Local, provide an endpoint-url parameter:\n  --endpoint-url http://localhost:8000\n\nCurrent endpoint: ").data

/-- Embedding of the local f-string `error_message` built in the denial branch
of `validate_delete_table_operation`. -/
def error_message (endpoint_url : Option Str) : Str :=
  denialTemplate ++ endpoint_display endpoint_url

/-- Embedding of `validate_delete_table_operation(command, endpoint_url)`. -/
def validate_delete_table_operation (command : Str) (endpoint_url : Option Str) :
    Bool × Option Str :=
  if !(is_delete_table_operation command) then (true, none)
  else if is_dynamodb_local endpoint_url then (true, none)
  else (false, some (error_message endpoint_url))

/-- The endpoint shape `<protocol>dynamodb(-fips)?.<region>.amazonaws.com`
named by the spec's testable property 2, used by claim C6. -/
def awsEndpointShape (protocol : Str) (fips : Bool) (region : Str) : Str :=
  protocol ++ "dynamodb".data ++ (if fips then "-fips".data else []) ++
    ".".data ++ region ++ ".amazonaws.com".data

/-! ## General lemmas about substring occurrences -/

/-- An occurrence of `n` inside `a ++ b` lies inside `a`, lies inside `b`, or
straddles the boundary: `n` splits into a non-empty suffix of `a` followed by
a non-empty prefix of `b`. -/
theorem infix_append_split {n a b : Str} (h : n <:+: a ++ b) :
    n <:+: a ∨ n <:+: b ∨
      ∃ s t, n = s ++ t ∧ s ≠ [] ∧ t ≠ [] ∧ s <:+ a ∧ t <+: b := by
  obtain ⟨u, v, huv⟩ := h
  rw [List.append_assoc] at huv
  rcases List.append_eq_append_iff.mp huv with ⟨w, hw1, hw2⟩ | ⟨c, hc1, hc2⟩
  · rcases List.append_eq_append_iff.mp hw2 with ⟨x, hx1, hx2⟩ | ⟨y, hy1, hy2⟩
    · exact Or.inl ⟨u, x, by rw [hw1, hx1, List.append_assoc]⟩
    · by_cases hw : w = []
      · subst hw
        simp only [List.nil_append] at hy1
        exact Or.inr (Or.inl ⟨[], v, by simp [← hy1, hy2]⟩)
      · by_cases hy : y = []
        · subst hy
          rw [List.append_nil] at hy1
          exact Or.inl ⟨u, [], by rw [List.append_nil, hw1, hy1]⟩
        · exact Or.inr (Or.inr ⟨w, y, hy1, hw, hy, ⟨u, hw1.symm⟩, ⟨v, hy2.symm⟩⟩)
  · exact Or.inr (Or.inl ⟨c, v, by rw [hc2, List.append_assoc]⟩)

/-- Substrings of a character-wise mapped string are exactly the images of
substrings of the original string. -/
theorem infix_map_iff (f : Char → Char) (n s : Str) :
    n <:+: s.map f ↔ ∃ t, t <:+: s ∧ t.map f = n := by
  constructor
  · rintro ⟨u, v, huv⟩
    rw [List.append_assoc] at huv
    obtain ⟨s₁, s₂₃, hs, hmap1, hmap23⟩ := List.map_eq_append_iff.mp huv.symm
    obtain ⟨s₂, s₃, hs2, hmap2, hmap3⟩ := List.map_eq_append_iff.mp hmap23
    exact ⟨s₂, ⟨s₁, s₃, by rw [List.append_assoc, hs, hs2]⟩, hmap2⟩
  · rintro ⟨t, ht, rfl⟩
    exact ht.map f

/-! ## Characterizations of the two classifiers -/

/-- Unfolding of `is_dynamodb_local` on a present endpoint. -/
theorem is_dynamodb_local_some_iff (s : Str) :
    is_dynamodb_local (some s) = true ↔
      s ≠ [] ∧ ("localhost".data <:+: pyLower s ∨ "127.0.0.1".data <:+: pyLower s ∨
        "0.0.0.0".data <:+: pyLower s) := by
  by_cases hs : s = []
  · subst hs; simp [is_dynamodb_local]
  · simp [is_dynamodb_local, hs, local_indicators]

/-- Unfolding of `is_delete_table_operation`. -/
theorem is_delete_table_operation_iff (c : Str) :
    is_delete_table_operation c = true ↔ "delete-table".data <:+: pyLower c := by
  simp [is_delete_table_operation]

/-! ## Claim theorems -/

/-- C1: `validate_delete_table_operation` returns `(true, absent)` when the
command is not a deletion operation; returns `(true, absent)` when it is a
deletion operation and the endpoint is local; and returns `(false, message)`
with a non-absent message in every remaining case. -/
theorem policy_decision_cases (command : Str) (endpoint_url : Option Str) :
    (is_delete_table_operation command = false →
      validate_delete_table_operation command endpoint_url = (true, none))
  ∧ (is_delete_table_operation command = true → is_dynamodb_local endpoint_url = true →
      validate_delete_table_operation command endpoint_url = (true, none))
  ∧ (is_delete_table_operation command = true → is_dynamodb_local endpoint_url = false →
      (validate_delete_table_operation command endpoint_url).1 = false ∧
      (validate_delete_table_operation command endpoint_url).2 ≠ none) := by
  refine ⟨fun h => ?_, fun h1 h2 => ?_, fun h1 h2 => ?_⟩ <;>
    simp [validate_delete_table_operation, *]

/-- Witness for C1: a concrete deletion command with a concrete non-local
endpoint is denied with a message present. -/
theorem policy_decision_cases_witness :
    (validate_delete_table_operation "aws dynamodb delete-table --table-name T".data
        (some "https://dynamodb.us-east-1.amazonaws.com".data)).1 = false ∧
    (validate_delete_table_operation "aws dynamodb delete-table --table-name T".data
        (some "https://dynamodb.us-east-1.amazonaws.com".data)).2 ≠ none :=
  (policy_decision_cases "aws dynamodb delete-table --table-name T".data
      (some "https://dynamodb.us-east-1.amazonaws.com".data)).2.2 (by decide) (by decide)

/-- C2: `is_dynamodb_local` returns true exactly when the endpoint is present,
non-empty, and its lower-cased copy contains one of the three local
indicators; in particular any string containing a letter-casing variant of an
indicator is classified local. -/
theorem is_dynamodb_local_spec (e : Option Str) :
    (is_dynamodb_local e = true ↔
      ∃ s, e = some s ∧ s ≠ [] ∧
        ("localhost".data <:+: pyLower s ∨ "127.0.0.1".data <:+: pyLower s ∨
         "0.0.0.0".data <:+: pyLower s))
  ∧ (∀ s t : Str, t <:+: s →
      (pyLower t = "localhost".data ∨ pyLower t = "127.0.0.1".data ∨
       pyLower t = "0.0.0.0".data) →
      is_dynamodb_local (some s) = true) := by
  constructor
  · cases e with
    | none => simp [is_dynamodb_local]
    | some s => rw [is_dynamodb_local_some_iff]; simp
  · intro s t hts hvar
    have htne : t ≠ [] := by
      rintro rfl
      rcases hvar with h | h | h <;> revert h <;> decide
    have hsne : s ≠ [] := by
      rintro rfl
      exact htne (List.infix_nil.mp hts)
    rw [is_dynamodb_local_some_iff]
    refine ⟨hsne, ?_⟩
    have hmap : pyLower t <:+: pyLower s := hts.map Char.toLower
    rcases hvar with h | h | h
    · exact Or.inl (h ▸ hmap)
    · exact Or.inr (Or.inl (h ▸ hmap))
    · exact Or.inr (Or.inr (h ▸ hmap))

/-- Witness for C2: a mixed-case occurrence of `localhost` inside a larger
endpoint string is classified local. -/
theorem is_dynamodb_local_spec_witness :
    is_dynamodb_local (some "http://LoCaLhOsT:8000".data) = true :=
  (is_dynamodb_local_spec (some "http://LoCaLhOsT:8000".data)).2
    "http://LoCaLhOsT:8000".data "LoCaLhOsT".data (by decide) (Or.inl (by decide))

/-- C3: `is_delete_table_operation` returns true exactly when the lower-cased
command contains `"delete-table"`, equivalently exactly when the command
contains some letter-casing variant of `"delete-table"` as a substring. -/
theorem is_delete_table_operation_spec (c : Str) :
    (is_delete_table_operation c = true ↔ "delete-table".data <:+: pyLower c)
  ∧ (is_delete_table_operation c = true ↔
      ∃ t, t <:+: c ∧ pyLower t = "delete-table".data) := by
  refine ⟨is_delete_table_operation_iff c, (is_delete_table_operation_iff c).trans ?_⟩
  exact infix_map_iff Char.toLower "delete-table".data c

/-- C4: whenever the validator denies, the message equals the fixed template
followed by the endpoint verbatim, or by `"AWS DynamoDB (default)"` when the
endpoint is absent or empty. -/
theorem denial_message_exact (c : Str) (e : Option Str) (m : Str)
    (h : validate_delete_table_operation c e = (false, some m)) :
    m = denialTemplate ++ (match e with
      | none => "AWS DynamoDB (default)".data
      | some s => if s = [] then "AWS DynamoDB (default)".data else s) := by
  by_cases h1 : is_delete_table_operation c = true <;>
    by_cases h2 : is_dynamodb_local e = true <;>
      simp [validate_delete_table_operation, h1, h2] at h
  subst h
  cases e with
  | none => simp [error_message, endpoint_display]
  | some s => by_cases hs : s = [] <;> simp [error_message, endpoint_display, hs]

/-- Witness for C4: the denial message for an absent endpoint is the template
followed by the default display text. -/
theorem denial_message_exact_witness :
    error_message none = denialTemplate ++ "AWS DynamoDB (default)".data :=
  denial_message_exact "delete-table".data none (error_message none) (by decide)

/-- C5: the returned message is present if and only if the returned allowed
flag is false. -/
theorem message_iff_denied (c : Str) (e : Option Str) :
    (validate_delete_table_operation c e).2.isSome = true ↔
    (validate_delete_table_operation c e).1 = false := by
  by_cases h1 : is_delete_table_operation c = true <;>
    by_cases h2 : is_dynamodb_local e = true <;>
      simp [validate_delete_table_operation, h1, h2]

/-- A substring of `a` is a substring of `a ++ b`. -/
theorem infix_append_left {n a : Str} (b : Str) (h : n <:+: a) : n <:+: a ++ b :=
  h.trans ⟨[], b, by simp⟩

/-- C7: for every deletion command with a non-local endpoint the message is
present, and (case-insensitively) mentions `delete-table`, `dynamodb local`
together with `only` / `not allowed`, `endpoint-url`, and `localhost` /
`127.0.0.1`. -/
theorem denial_message_content (c : Str) (e : Option Str)
    (hc : is_delete_table_operation c = true)
    (he : is_dynamodb_local e = false) :
    (validate_delete_table_operation c e).2.isSome = true ∧
    ∀ m, (validate_delete_table_operation c e).2 = some m →
      ("delete-table".data <:+: pyLower m ∧
       "dynamodb local".data <:+: pyLower m ∧
       ("require".data <:+: pyLower m ∨ "only".data <:+: pyLower m ∨
        "not allowed".data <:+: pyLower m) ∧
       "endpoint-url".data <:+: pyLower m ∧
       ("localhost".data <:+: pyLower m ∨ "127.0.0.1".data <:+: pyLower m)) := by
  have hval : validate_delete_table_operation c e = (false, some (error_message e)) := by
    simp [validate_delete_table_operation, hc, he]
  rw [hval]
  refine ⟨rfl, fun m hm => ?_⟩
  have hm' : m = error_message e := by simpa using hm.symm
  subst hm'
  have hlow : pyLower (error_message e) =
      pyLower denialTemplate ++ pyLower (endpoint_display e) := by
    simp [error_message, pyLower, List.map_append]
  rw [hlow]
  refine ⟨infix_append_left _ (by decide), infix_append_left _ (by decide),
    Or.inr (Or.inl (infix_append_left _ (by decide))),
    infix_append_left _ (by decide), Or.inl (infix_append_left _ (by decide))⟩

/-- Witness for C7: the content properties hold of the concrete denial message
for an absent endpoint. -/
theorem denial_message_content_witness :
    "delete-table".data <:+: pyLower (error_message none) ∧
    "dynamodb local".data <:+: pyLower (error_message none) ∧
    ("require".data <:+: pyLower (error_message none) ∨
     "only".data <:+: pyLower (error_message none) ∨
     "not allowed".data <:+: pyLower (error_message none)) ∧
    "endpoint-url".data <:+: pyLower (error_message none) ∧
    ("localhost".data <:+: pyLower (error_message none) ∨
     "127.0.0.1".data <:+: pyLower (error_message none)) :=
  (denial_message_content "delete-table".data none (by decide) (by decide)).2
    (error_message none) (by decide)

/-- C8: the validator is total: on every pair of inputs it returns one of the
two result shapes, allowing with no message or denying with the fixed
message. -/
theorem validator_total (c : Str) (e : Option Str) :
    validate_delete_table_operation c e = (true, none) ∨
    validate_delete_table_operation c e = (false, some (error_message e)) := by
  by_cases h1 : is_delete_table_operation c = true <;>
    by_cases h2 : is_dynamodb_local e = true <;>
      simp [validate_delete_table_operation, h1, h2]

/-- C9: both classifiers are monotone under string extension: embedding a
local endpoint, or a deletion command, into any surrounding text preserves
the classification. -/
theorem classifiers_monotone :
    (∀ e p q : Str, is_dynamodb_local (some e) = true →
      is_dynamodb_local (some (p ++ e ++ q)) = true)
  ∧ (∀ c p q : Str, is_delete_table_operation c = true →
      is_delete_table_operation (p ++ c ++ q) = true) := by
  constructor
  · intro e p q he
    rw [is_dynamodb_local_some_iff] at he ⊢
    obtain ⟨hne, hdisj⟩ := he
    have hmid : pyLower e <:+: pyLower (p ++ e ++ q) := by
      have : pyLower (p ++ e ++ q) = pyLower p ++ pyLower e ++ pyLower q := by
        simp [pyLower, List.map_append]
      rw [this]
      exact List.infix_append _ _ _
    refine ⟨by simp [hne], ?_⟩
    rcases hdisj with h | h | h
    · exact Or.inl (h.trans hmid)
    · exact Or.inr (Or.inl (h.trans hmid))
    · exact Or.inr (Or.inr (h.trans hmid))
  · intro c p q hc
    rw [is_delete_table_operation_iff] at hc ⊢
    have hmid : pyLower c <:+: pyLower (p ++ c ++ q) := by
      have : pyLower (p ++ c ++ q) = pyLower p ++ pyLower c ++ pyLower q := by
        simp [pyLower, List.map_append]
      rw [this]
      exact List.infix_append _ _ _
    exact hc.trans hmid

/-- Witness for C9: extending a concrete local endpoint and a concrete
deletion command preserves both classifications. -/
theorem classifiers_monotone_witness :
    is_dynamodb_local (some ("http://".data ++ "LOCALHOST".data ++ ":8000".data)) = true ∧
    is_delete_table_operation ("aws dynamodb ".data ++ "DELETE-TABLE".data ++ " --x".data)
      = true :=
  ⟨classifiers_monotone.1 "LOCALHOST".data "http://".data ":8000".data (by decide),
   classifiers_monotone.2 "DELETE-TABLE".data "aws dynamodb ".data " --x".data (by decide)⟩

/-- C10: a whitespace-only endpoint is present and non-empty, hence non-local,
a deletion command against it is denied, and the message shows the
whitespace verbatim; the default display is used exactly for the absent and
the empty endpoint. -/
theorem whitespace_endpoint_verbatim :
    is_dynamodb_local (some " ".data) = false
  ∧ (∀ c, is_delete_table_operation c = true →
      validate_delete_table_operation c (some " ".data) =
        (false, some (denialTemplate ++ " ".data)))
  ∧ (∀ s : Str, s ≠ [] → endpoint_display (some s) = s)
  ∧ endpoint_display none = "AWS DynamoDB (default)".data
  ∧ endpoint_display (some []) = "AWS DynamoDB (default)".data := by
  refine ⟨by decide, fun c hc => ?_, fun s hs => by simp [endpoint_display, hs],
    rfl, rfl⟩
  have hloc : is_dynamodb_local (some " ".data) = true → False := by decide
  simp [validate_delete_table_operation, hc, hloc, error_message, endpoint_display]
  decide

/-- Witness for C10: the concrete deletion command against the one-space
endpoint is denied with the space shown verbatim. -/
theorem whitespace_endpoint_verbatim_witness :
    validate_delete_table_operation "delete-table".data (some " ".data) =
      (false, some (denialTemplate ++ " ".data)) :=
  whitespace_endpoint_verbatim.2.1 "delete-table".data (by decide)

/-- If `ind` occurs in neither `P` nor `R`, does not occur in and cannot
straddle the fixed strings `mid` and `tail`, and `mid` starts with a
character not occurring in `ind`, then `ind` does not occur in
`P ++ mid ++ R ++ tail`. -/
theorem shielded_not_infix (P R mid tail ind : Str) (c : Char) (mid' : Str)
    (hmidc : mid = c :: mid')
    (hcnot : c ∉ ind)
    (hmid : ¬ ind <:+: mid)
    (htail : ¬ ind <:+: tail)
    (hs1 : ∀ s ∈ mid.tails, s <+: ind → s = [])
    (hs2 : ∀ t ∈ ind.tails, t <+: tail → t = [])
    (hP : ¬ ind <:+: P) (hR : ¬ ind <:+: R) :
    ¬ ind <:+: P ++ (mid ++ (R ++ tail)) := by
  intro h
  rcases infix_append_split h with hA | hB | ⟨s, t, heq, hsne, htne, hsuf, hpre⟩
  · exact hP hA
  · rcases infix_append_split hB with hM | hRT | ⟨s, t, heq, hsne, htne, hsuf, hpre⟩
    · exact hmid hM
    · rcases infix_append_split hRT with hr | ht | ⟨s, t, heq, hsne, htne, hsuf, hpre⟩
      · exact hR hr
      · exact htail ht
      · exact htne (hs2 t ((List.mem_tails t ind).mpr ⟨s, heq.symm⟩) hpre)
    · exact hsne (hs1 s ((List.mem_tails s mid).mpr hsuf) ⟨t, heq.symm⟩)
  · obtain ⟨w, hw⟩ := hpre
    rw [hmidc, List.cons_append] at hw
    cases t with
    | nil => exact htne rfl
    | cons th tt =>
      rw [List.cons_append] at hw
      injection hw with h1 h2
      apply hcnot
      rw [heq, ← h1]
      exact List.mem_append_right s (List.mem_cons_self th tt)

/-- Lower-casing the AWS endpoint shape without FIPS. -/
theorem pyLower_shape_false (p r : Str) :
    pyLower (awsEndpointShape p false r) =
      pyLower p ++ ("dynamodb.".data ++ (pyLower r ++ ".amazonaws.com".data)) := by
  have h1 : ("dynamodb.".data : Str) =
      List.map Char.toLower "dynamodb".data ++ List.map Char.toLower ".".data := by decide
  have h2 : (".amazonaws.com".data : Str) =
      List.map Char.toLower ".amazonaws.com".data := by decide
  rw [h1, h2]
  unfold awsEndpointShape pyLower
  simp [List.map_append, List.append_assoc]

/-- Lower-casing the AWS endpoint shape with FIPS. -/
theorem pyLower_shape_true (p r : Str) :
    pyLower (awsEndpointShape p true r) =
      pyLower p ++ ("dynamodb-fips.".data ++ (pyLower r ++ ".amazonaws.com".data)) := by
  have h1 : ("dynamodb-fips.".data : Str) =
      List.map Char.toLower "dynamodb".data ++ (List.map Char.toLower "-fips".data ++
        List.map Char.toLower ".".data) := by decide
  have h2 : (".amazonaws.com".data : Str) =
      List.map Char.toLower ".amazonaws.com".data := by decide
  rw [h1, h2]
  unfold awsEndpointShape pyLower
  simp [List.map_append, List.append_assoc]

/-- No local indicator occurs in the lower-cased AWS endpoint shape, provided
none occurs in the lower-cased protocol or region parts. -/
theorem no_indicator_in_shape (p r : Str) (f : Bool) (ind : Str)
    (hind : ind ∈ local_indicators)
    (hp : ¬ ind <:+: pyLower p) (hr : ¬ ind <:+: pyLower r) :
    ¬ ind <:+: pyLower (awsEndpointShape p f r) := by
  simp only [local_indicators, List.mem_cons, List.not_mem_nil, or_false] at hind
  cases f
  · rw [pyLower_shape_false]
    rcases hind with rfl | rfl | rfl
    · exact shielded_not_infix (pyLower p) (pyLower r) "dynamodb.".data
        ".amazonaws.com".data "localhost".data 'd' "ynamodb.".data (by decide) (by decide)
        (by decide) (by decide) (by decide) (by decide) hp hr
    · exact shielded_not_infix (pyLower p) (pyLower r) "dynamodb.".data
        ".amazonaws.com".data "127.0.0.1".data 'd' "ynamodb.".data (by decide) (by decide)
        (by decide) (by decide) (by decide) (by decide) hp hr
    · exact shielded_not_infix (pyLower p) (pyLower r) "dynamodb.".data
        ".amazonaws.com".data "0.0.0.0".data 'd' "ynamodb.".data (by decide) (by decide)
        (by decide) (by decide) (by decide) (by decide) hp hr
  · rw [pyLower_shape_true]
    rcases hind with rfl | rfl | rfl
    · exact shielded_not_infix (pyLower p) (pyLower r) "dynamodb-fips.".data
        ".amazonaws.com".data "localhost".data 'd' "ynamodb-fips.".data (by decide) (by decide)
        (by decide) (by decide) (by decide) (by decide) hp hr
    · exact shielded_not_infix (pyLower p) (pyLower r) "dynamodb-fips.".data
        ".amazonaws.com".data "127.0.0.1".data 'd' "ynamodb-fips.".data (by decide) (by decide)
        (by decide) (by decide) (by decide) (by decide) hp hr
    · exact shielded_not_infix (pyLower p) (pyLower r) "dynamodb-fips.".data
        ".amazonaws.com".data "0.0.0.0".data 'd' "ynamodb-fips.".data (by decide) (by decide)
        (by decide) (by decide) (by decide) (by decide) hp hr

/-- C6 counterexample: the AWS endpoint shape instantiated with the region
text `localhost` is classified as local, not as non-local. -/
theorem aws_shape_counterexample :
    awsEndpointShape "https://".data false "localhost".data =
      "https://dynamodb.localhost.amazonaws.com".data ∧
    is_dynamodb_local (some (awsEndpointShape "https://".data false "localhost".data))
      = true := by
  constructor <;> decide

/-- C6 (amended): `is_dynamodb_local` returns false for an absent endpoint,
for the empty endpoint, and for every string of the shape
`<protocol>dynamodb(-fips)?.<region>.amazonaws.com` whose protocol and region
parts, lower-cased, contain none of the three local indicators. -/
theorem aws_shape_not_local (protocol region : Str) (fips : Bool)
    (hp : ∀ ind ∈ local_indicators, ¬ ind <:+: pyLower protocol)
    (hr : ∀ ind ∈ local_indicators, ¬ ind <:+: pyLower region) :
    is_dynamodb_local none = false ∧ is_dynamodb_local (some []) = false ∧
    is_dynamodb_local (some (awsEndpointShape protocol fips region)) = false := by
  refine ⟨by decide, by decide, ?_⟩
  rw [Bool.eq_false_iff]
  intro htrue
  rw [is_dynamodb_local_some_iff] at htrue
  obtain ⟨hne, hdisj⟩ := htrue
  rcases hdisj with h | h | h
  · exact no_indicator_in_shape protocol region fips "localhost".data (by decide)
      (hp "localhost".data (by decide)) (hr "localhost".data (by decide)) h
  · exact no_indicator_in_shape protocol region fips "127.0.0.1".data (by decide)
      (hp "127.0.0.1".data (by decide)) (hr "127.0.0.1".data (by decide)) h
  · exact no_indicator_in_shape protocol region fips "0.0.0.0".data (by decide)
      (hp "0.0.0.0".data (by decide)) (hr "0.0.0.0".data (by decide)) h

/-- Witness for the amended C6: a concrete FIPS AWS endpoint with an ordinary
region is classified non-local. -/
theorem aws_shape_not_local_witness :
    is_dynamodb_local none = false ∧ is_dynamodb_local (some []) = false ∧
    is_dynamodb_local (some (awsEndpointShape "https://".data true "us-gov-west-1".data))
      = false :=
  aws_shape_not_local "https://".data "us-gov-west-1".data true (by decide) (by decide)
